import Mathlib

/-!
Verification development for the `ilabs_streamsync` repository.

The first part embeds the code of `src/ilabs_streamsync/streamsync.py`
(the `StreamSync` class) shallowly in Lean: Python exceptions become an
error type carried by `Except`, the filesystem that `pathlib` / `mne` /
`scipy.io.wavfile` touch becomes an explicit map from path strings to
parsed file contents, and NumPy arrays become lists.  The second part
models, from the specification's words, the alignment-engine components
(PulseDetector, WarpEstimator, EventProjector) that the repository does
not implement.
-/

namespace StreamSyncSpec

attribute [local semireducible] Rat.add Rat.sub Rat.mul Rat.inv

/-- The Python exception classes that the embedded code can raise,
plus the spec's error taxonomy for the spec-modelled components. -/
inductive SyncError where
  | typeError
  | osError
  | valueError
  | readError
  | indexError
  | fileNotFoundError
  | noPulsesFound
  | insufficientMatches
deriving DecidableEq, Repr

/-- Equality of `Except` results is decidable, so concrete runs of the
embedded code can be checked by evaluation. -/
instance instDecEqExcept {ε α : Type} [DecidableEq ε] [DecidableEq α] :
    DecidableEq (Except ε α) := fun a b =>
  match a, b with
  | .error e, .error f =>
    if h : e = f then .isTrue (congrArg Except.error h)
    else .isFalse fun hh => h (Except.error.inj hh)
  | .ok x, .ok y =>
    if h : x = y then .isTrue (congrArg Except.ok h)
    else .isFalse fun hh => h (Except.ok.inj hh)
  | .error _, .ok _ => .isFalse fun hh => Except.noConfusion hh
  | .ok _, .error _ => .isFalse fun hh => Except.noConfusion hh

/-- A Python argument that may be `None`, a string, or a non-string
object (the code type-checks its arguments at runtime). -/
inductive PyArg where
  | pynone
  | str (s : String)
  | nonstr
deriving DecidableEq, Repr

/- ### Path model: `pathlib.Path(p).suffix` -/

/-- Characters of the final path component: everything after the last
`/` (`pathlib.PurePath.name`). -/
def lastComponent : List Char → List Char → List Char
  | [], acc => acc.reverse
  | c :: cs, acc =>
    if c = '/' then lastComponent cs [] else lastComponent cs (c :: acc)

/-- The final path component, i.e. the part after the last `/`
(`pathlib.PurePath.name`). -/
def fileName (p : String) : String :=
  String.mk (lastComponent p.toList [])

/-- Index of the last `.` in a character list, if any. -/
def lastDotIdxGo : List Char → Nat → Option Nat → Option Nat
  | [], _, acc => acc
  | c :: cs, i, acc => lastDotIdxGo cs (i + 1) (if c = '.' then some i else acc)

def lastDotIdx (cs : List Char) : Option Nat :=
  lastDotIdxGo cs 0 none

/-- `pathlib.PurePath.suffix`: the extension of the final component,
including the dot; empty when the name has no dot, starts with its only
dot, or ends with the dot. -/
def pathSuffix (p : String) : String :=
  let name := (fileName p).toList
  match lastDotIdx name with
  | none => ""
  | some i => if 0 < i ∧ i < name.length - 1 then String.mk (name.drop i) else ""

/- ### File model -/

/-- A parsed `.fif` file as `mne.io.read_raw_fif` exposes it: a sample
rate and named channels of numeric data. -/
structure FifFile where
  sfreq : ℚ
  channels : List (String × List ℚ)
deriving DecidableEq, Repr

/-- The array `scipy.io.wavfile.read` returns: 1-D for mono,
2-D (frames × channels) otherwise.  PCM samples are integers. -/
inductive WavData where
  | mono (samples : List ℤ)
  | multi (ncols : ℕ) (rows : List (List ℤ))
deriving DecidableEq, Repr

structure WavFile where
  srate : ℤ
  data : WavData
deriving DecidableEq, Repr

/-- What parsing a file on disk yields. -/
inductive FileContent where
  | fif (f : FifFile)
  | wav (w : WavFile)
  | other
deriving DecidableEq, Repr

/-- The filesystem the embedded code reads: `none` means the path does
not exist. -/
def FS : Type := String → Option FileContent

/-- `raw[pulse_channel]`: look up a channel by name in a loaded fif
file; a missing channel raises (modelled by `none`). -/
def lookupChannel (f : FifFile) (ch : String) : Option (List ℚ) :=
  (f.channels.find? (fun p => p.1 == ch)).map (·.2)

/- ### The `StreamSync` object -/

/-- The fields `__init__` sets: `self.raw`, `self.ref_stream`,
`self.sfreq`, and `self.streams` (a list of
`(filename, srate, Pulses, Data)` tuples). -/
structure StreamSyncState where
  raw : FifFile
  ref_stream : List ℚ
  sfreq : ℚ
  streams : List (String × ℤ × List ℤ × List ℤ)
deriving DecidableEq, Repr

/-- `StreamSync.__init__(reference_object, pulse_channel)`: runtime
type/existence/suffix checks on the reference path, loading the fif
file, runtime checks on the pulse-channel name, then field
initialization.  Each `raise` becomes `Except.error`. -/
def streamSyncInit (fs : FS) (reference_object pulse_channel : PyArg) :
    Except SyncError StreamSyncState :=
  match reference_object with
  | .pynone => .error .typeError
  | .nonstr => .error .typeError
  | .str s =>
    if s = "" then .error .typeError
    else if (fs s).isNone then .error .osError
    else if pathSuffix s ≠ ".fif" then .error .valueError
    else
      match fs s with
      | some (.fif f) =>
        (match pulse_channel with
         | .pynone => .error .typeError
         | .nonstr => .error .typeError
         | .str ch =>
           if ch = "" then .error .typeError
           else
             match lookupChannel f ch with
             | none => .error .valueError
             | some dat => .ok ⟨f, dat, f.sfreq, []⟩)
      | _ => .error .readError

/-- NumPy column indexing `arr[:, j]` on a 2-D array with `ncols`
columns: negative indices count from the end; out-of-range raises
`IndexError`. -/
def npCol (ncols : ℕ) (rows : List (List ℤ)) (j : ℤ) :
    Except SyncError (List ℤ) :=
  let idx : ℤ := if j < 0 then (ncols : ℤ) + j else j
  if 0 ≤ idx ∧ idx < (ncols : ℤ) then
    .ok (rows.map (fun r => r.getD idx.toNat 0))
  else .error .indexError

/-- `StreamSync._extract_data_from_wav(stream, channel)` applied to the
already-read wav content: returns
`(srate, wav_signal[:, channel], wav_signal[:, 1-channel])`; indexing a
1-D (mono) array with two indices raises `IndexError`. -/
def extract_data_from_wav (w : WavFile) (channel : ℤ) :
    Except SyncError (ℤ × List ℤ × List ℤ) :=
  match w.data with
  | .mono _ => .error .indexError
  | .multi ncols rows =>
    match npCol ncols rows channel with
    | .error e => .error e
    | .ok pulses =>
      match npCol ncols rows (1 - channel) with
      | .error e => .error e
      | .ok data => .ok (w.srate, pulses, data)

/-- `StreamSync._extract_data_from_stream(stream, channel)`: dispatch on
the path suffix; only `.wav` is supported, anything else raises
`TypeError` before any file access.  Reading a missing or non-wav file
makes `wavread` itself fail. -/
def extract_data_from_stream (fs : FS) (stream : String) (channel : ℤ) :
    Except SyncError (ℤ × List ℤ × List ℤ) :=
  if pathSuffix stream = ".wav" then
    match fs stream with
    | some (.wav w) => extract_data_from_wav w channel
    | some _ => .error .valueError
    | none => .error .fileNotFoundError
  else .error .typeError

/-- `StreamSync.add_stream(stream, channel)`: extract
`(srate, pulses, data)` and append `(stream, srate, pulses, data)` to
`self.streams`.  A raised exception propagates (first component) and
leaves the object unchanged (second component); on success the call
returns `None` (unit). -/
def add_stream (fs : FS) (s : StreamSyncState) (stream : String)
    (channel : ℤ) : Except SyncError Unit × StreamSyncState :=
  match extract_data_from_stream fs stream channel with
  | .error e => (.error e, s)
  | .ok (srate, pulses, data) =>
    (.ok (), { s with streams := s.streams ++ [(stream, srate, pulses, data)] })

/-- `StreamSync.do_syncing()`: the body contains only comments, so the
call mutates nothing and returns `None` (unit). -/
def do_syncing (s : StreamSyncState) : StreamSyncState × Unit :=
  (s, ())

/- ### Spec-modelled components

The repository contains no PulseDetector, WarpEstimator or
EventProjector; the definitions below are modelled from the
specification's words (sections 4.1, 4.3, 4.4) so that the claims about
them can be stated. -/

/-- A Signal: sample rate (Hz) plus numeric samples (spec section 3). -/
structure Signal where
  sample_rate : ℚ
  samples : List ℚ
deriving DecidableEq, Repr

/-- A PulseTrain: ordered sequence of onset times in seconds. -/
structure PulseTrain where
  onsets : List ℚ
deriving DecidableEq, Repr

/-- Modelled from the spec: PulseDetector configuration — the two
hysteresis thresholds and the refractory period (seconds). -/
structure DetectorConfig where
  hi : ℚ
  lo : ℚ
  refractory : ℚ
deriving DecidableEq, Repr

def sumQ (l : List ℚ) : ℚ := l.foldl (· + ·) 0

/-- Modelled from the spec: normalization step of PulseDetector —
remove the DC offset by subtracting the mean. -/
def normalizeSignal (samples : List ℚ) : List ℚ :=
  if samples.length = 0 then []
  else
    let mean := sumQ samples / (samples.length : ℚ)
    samples.map (· - mean)

/-- Modelled from the spec: the hysteresis scan of PulseDetector.
Walks the normalized samples tracking a binary high/low state (high
when a sample reaches `hi`, low again when a sample falls to `lo`);
every low-to-high transition emits an onset whose time is the
sub-sample linear interpolation of the `hi` crossing between the two
bracketing samples, divided by the sample rate; an onset closer than
the refractory period to the previously emitted one is rejected. -/
def detectGo (cfg : DetectorConfig) (rate : ℚ) :
    ℕ → Option ℚ → Bool → Option ℚ → List ℚ → List ℚ
  | _, _, _, _, [] => []
  | i, prev, high, last, x :: rest =>
    if ¬ high ∧ cfg.hi ≤ x then
      let t : ℚ :=
        match prev with
        | none => 0
        | some p => ((i : ℚ) - 1 + (cfg.hi - p) / (x - p)) / rate
      let emit : Bool :=
        match last with
        | none => true
        | some l => decide (cfg.refractory ≤ t - l)
      if emit then t :: detectGo cfg rate (i + 1) (some x) true (some t) rest
      else detectGo cfg rate (i + 1) (some x) true last rest
    else
      detectGo cfg rate (i + 1) (some x) (if x ≤ cfg.lo then false else high)
        last rest

/-- Modelled from the spec: the full onset-extraction pipeline of
PulseDetector (normalize, then hysteresis scan with sub-sample
interpolation and refractory rejection). -/
def detectOnsets (sig : Signal) (cfg : DetectorConfig) : List ℚ :=
  detectGo cfg sig.sample_rate 0 none false none (normalizeSignal sig.samples)

/-- Modelled from the spec: `PulseDetector.detect(signal) -> PulseTrain`,
failing with `NoPulsesFoundError` when fewer than 2 onsets are
detected. -/
def detect (sig : Signal) (cfg : DetectorConfig) :
    Except SyncError PulseTrain :=
  if (detectOnsets sig cfg).length < 2 then .error .noPulsesFound
  else .ok ⟨detectOnsets sig cfg⟩

/-- An affine time warp `t_ref = a * t_secondary + b`. -/
structure TimeWarp where
  a : ℚ
  b : ℚ
deriving DecidableEq, Repr

/-- Modelled from the spec: `EventProjector.project(warp, t)` — pure
arithmetic application of `a * t + b`. -/
def project (w : TimeWarp) (t : ℚ) : ℚ := w.a * t + w.b

/-- A matched pulse pair: onset time in the secondary stream and the
corresponding onset time in the reference stream. -/
structure PulseMatch where
  sec_time : ℚ
  ref_time : ℚ
deriving DecidableEq, Repr

/-- Modelled from the spec: WarpEstimator configuration — minimum match
count (default 3), the plausible drift bound for `a` (e.g. 0.9–1.1),
the residual threshold beyond which one outlier-rejection pass runs,
and the residual/count thresholds for the confidence labels.  Residual
spread is carried as a variance (stddev squared), so each threshold is
the square of the spec's stddev threshold. -/
structure WarpConfig where
  min_matches : ℕ
  drift_lo : ℚ
  drift_hi : ℚ
  refit_var : ℚ
  high_var : ℚ
  high_count : ℕ
  med_var : ℚ
deriving DecidableEq, Repr

/-- The per-stream record the orchestrator stores (spec section 3):
`TimeWarp` (absent when the fit was rejected), match count, residual
spread, confidence label. -/
structure SyncResult where
  warp : Option TimeWarp
  match_count : ℕ
  residual_var : ℚ
  confidence_label : String
deriving DecidableEq, Repr

/-- Modelled from the spec: ordinary least-squares regression of the
second coordinates against the first, returning `(a, b)`; `none` when
the points are degenerate (fewer than two distinct abscissae). -/
def olsFit (pts : List (ℚ × ℚ)) : Option (ℚ × ℚ) :=
  let n : ℚ := pts.length
  let sx := sumQ (pts.map Prod.fst)
  let sy := sumQ (pts.map Prod.snd)
  let sxx := sumQ (pts.map fun p => p.1 * p.1)
  let sxy := sumQ (pts.map fun p => p.1 * p.2)
  let d := n * sxx - sx * sx
  if d = 0 then none
  else
    let a := (n * sxy - sx * sy) / d
    some (a, (sy - a * sx) / n)

/-- Mean squared residual of the fit `(a, b)` over the points. -/
def residualVar (pts : List (ℚ × ℚ)) (a b : ℚ) : ℚ :=
  if pts.length = 0 then 0
  else sumQ (pts.map fun p => (p.2 - (a * p.1 + b)) ^ 2) / (pts.length : ℚ)

/-- Modelled from the spec: the single robustness pass — drop the
match with the largest residual. -/
def dropWorst (pts : List (ℚ × ℚ)) (a b : ℚ) : List (ℚ × ℚ) :=
  let m := (pts.map fun p => (p.2 - (a * p.1 + b)) ^ 2).foldl max 0
  pts.eraseP (fun p => decide ((p.2 - (a * p.1 + b)) ^ 2 = m))

/-- Modelled from the spec: the final fitted parameters of
WarpEstimator — an initial OLS fit, then, when the initial residual
spread exceeds the configured threshold, one recomputation excluding
the largest-residual outlier.  Returns `(a, b, residual_var, count)`. -/
def finalFit (pts : List (ℚ × ℚ)) (cfg : WarpConfig) :
    Option (ℚ × ℚ × ℚ × ℕ) :=
  match olsFit pts with
  | none => none
  | some (a, b) =>
    let v := residualVar pts a b
    if cfg.refit_var < v then
      let pts2 := dropWorst pts a b
      match olsFit pts2 with
      | none => some (a, b, v, pts.length)
      | some (a2, b2) => some (a2, b2, residualVar pts2 a2 b2, pts2.length)
    else some (a, b, v, pts.length)

/-- Modelled from the spec: the discrete confidence label derived from
fixed thresholds on residual spread and match count. -/
def labelOf (cfg : WarpConfig) (v : ℚ) (k : ℕ) : String :=
  if v ≤ cfg.high_var ∧ cfg.high_count ≤ k then "high"
  else if v ≤ cfg.med_var then "medium"
  else "low"

/-- Modelled from the spec: `WarpEstimator.fit(matches) -> TimeWarp`
wrapped in a SyncResult — fails with `InsufficientMatchesError` below
the minimum match count; a fitted drift-scale outside the plausible
bound marks the stream failed (no accepted warp, label "failed")
rather than raising. -/
def matchPoints (ms : List PulseMatch) : List (ℚ × ℚ) :=
  ms.map fun m => (m.sec_time, m.ref_time)

def fit (ms : List PulseMatch) (cfg : WarpConfig) :
    Except SyncError SyncResult :=
  if ms.length < cfg.min_matches then .error .insufficientMatches
  else
    match finalFit (matchPoints ms) cfg with
    | none => .ok ⟨none, ms.length, 0, "failed"⟩
    | some (a, b, v, k) =>
      if a < cfg.drift_lo ∨ cfg.drift_hi < a then .ok ⟨none, k, v, "failed"⟩
      else .ok ⟨some ⟨a, b⟩, k, v, labelOf cfg v k⟩

/- ### Concrete fixtures used by the theorems -/

/-- A fif file whose pulse channel is flat (pulse-free). -/
def fif0 : FifFile := ⟨1000, [("STI101", [0, 0, 0, 0])]⟩

/-- Filesystem holding only the reference fif file. -/
def fsRef : FS := fun p => if p = "ref.fif" then some (.fif fif0) else none

/-- The session state right after construction from `fif0`. -/
def s0 : StreamSyncState := ⟨fif0, [0, 0, 0, 0], 1000, []⟩

/-- A stereo wav whose pulse channel (column 0) is pure noise. -/
def noiseRows : List (List ℤ) := [[3, -1], [-2, 5], [1, 0], [-4, 2], [2, -3], [0, 1]]

def wavNoise : WavFile := ⟨44100, .multi 2 noiseRows⟩

/-- A stereo wav with different contents at the same path. -/
def wavOther : WavFile := ⟨44100, .multi 2 [[7, 7], [7, 7]]⟩

def fsA : FS := fun p =>
  if p = "ref.fif" then some (.fif fif0)
  else if p = "cam1.wav" then some (.wav wavNoise)
  else if p = "cam2.wav" then some (.wav wavNoise)
  else none

/-- Differs from `fsA` in the contents of `cam1.wav`. -/
def fsB : FS := fun p => if p = "cam1.wav" then some (.wav wavOther) else none

/-- Agrees with `fsA` at `cam1.wav` but nowhere else. -/
def fsC : FS := fun p => if p = "cam1.wav" then some (.wav wavNoise) else none

/-- The session state after adding `cam1.wav` and `cam2.wav`. -/
def s2 : StreamSyncState :=
  (add_stream fsA (add_stream fsA s0 "cam1.wav" 0).2 "cam2.wav" 0).2

/-- Detector thresholds 3 / -3 with no refractory period. -/
def cfg0 : DetectorConfig := ⟨3, -3, 0⟩

/-- A clean square-wave pulse signal with three rising edges. -/
def sigSquare : Signal := ⟨1, [0, 10, 0, 10, 0, 10]⟩

/-- A flat signal: no transitions at all. -/
def sigFlat : Signal := ⟨1, [0, 0, 0, 0]⟩

/-- Warp-fitting configuration with drift bound 0.9–1.1. -/
def cfgW : WarpConfig := ⟨3, 9/10, 11/10, 1/10000, 1/1000000, 3, 1/100⟩

/-- Four noiseless matches on the identity warp (a = 1). -/
def msGood : List PulseMatch := [⟨0, 0⟩, ⟨1, 1⟩, ⟨2, 2⟩, ⟨3, 3⟩]

/-- Four noiseless matches with implausible drift (a = 2). -/
def msBad : List PulseMatch := [⟨0, 0⟩, ⟨1, 2⟩, ⟨2, 4⟩, ⟨3, 6⟩]

/-! ### Theorems -/

/-- C10: `StreamSync.do_syncing` is a no-op — for every session state it
returns `None` and leaves every field of the object unchanged, producing
no warp, match, or report data. -/
theorem C10_do_syncing_noop (s : StreamSyncState) : do_syncing s = (s, ()) :=
  rfl

/-- C5: event projection is exactly the affine application `a * t + b`,
so for every warp and pair of times,
`project w t1 - project w t2 = a * (t1 - t2)` holds exactly (hence
within any floating-point tolerance), with no failure modes. -/
theorem C5_project_affine (w : TimeWarp) (t1 t2 : ℚ) :
    project w t1 = w.a * t1 + w.b ∧
    project w t1 - project w t2 = w.a * (t1 - t2) := by
  refine ⟨rfl, ?_⟩
  unfold project
  ring

/-- C4: pulse detection fails with `NoPulsesFoundError` exactly when
fewer than 2 onsets are detected in the signal, and otherwise returns
the `PulseTrain` of detected onsets. -/
theorem C4_detect_iff (sig : Signal) (cfg : DetectorConfig) :
    (detect sig cfg = .error .noPulsesFound ↔
      (detectOnsets sig cfg).length < 2) ∧
    (detect sig cfg = .ok ⟨detectOnsets sig cfg⟩ ∨
      detect sig cfg = .error .noPulsesFound) := by
  unfold detect
  split <;> simp_all

/-- Witness for C4: a flat signal yields fewer than 2 onsets, and
`detect` indeed fails with `NoPulsesFoundError` on it. -/
theorem C4_witness :
    detect sigFlat cfg0 = .error .noPulsesFound :=
  (C4_detect_iff sigFlat cfg0).1.mpr (by decide)

/-- C8: `add_stream` on a path whose suffix is not `.wav` raises
`TypeError` and leaves the session state unchanged. -/
theorem C8_unsupported_format (fs : FS) (s : StreamSyncState)
    (stream : String) (c : ℤ) (h : pathSuffix stream ≠ ".wav") :
    add_stream fs s stream c = (.error .typeError, s) := by
  simp [add_stream, extract_data_from_stream, h]

/-- Witness for C8: adding `video.mp4` raises `TypeError` and leaves
the freshly constructed state untouched. -/
theorem C8_witness :
    add_stream fsA s0 "video.mp4" 0 = (.error .typeError, s0) :=
  C8_unsupported_format fsA s0 "video.mp4" 0 (by decide)

/-- C3 (amended): `StreamSync.__init__` fails loudly for every invalid
reference input — a `None`, empty, or non-string reference object
raises `TypeError`, a nonexistent path raises `OSError`, a non-`.fif`
suffix raises `ValueError`, invalid pulse-channel arguments raise
`TypeError`, a missing pulse channel raises `ValueError` — and on
success it stores the loaded file, the pulse-channel data and the
sample rate once, with an empty stream list.  No pulse detection is
performed, so no `NoPulsesFoundError` can arise. -/
theorem C3_init_checks (fs : FS) (pc : PyArg) (s ch : String) :
    streamSyncInit fs .pynone pc = .error .typeError
    ∧ streamSyncInit fs .nonstr pc = .error .typeError
    ∧ streamSyncInit fs (.str "") pc = .error .typeError
    ∧ (s ≠ "" → fs s = none → streamSyncInit fs (.str s) pc = .error .osError)
    ∧ (∀ cont, s ≠ "" → fs s = some cont → pathSuffix s ≠ ".fif" →
        streamSyncInit fs (.str s) pc = .error .valueError)
    ∧ (∀ f, s ≠ "" → fs s = some (.fif f) → pathSuffix s = ".fif" →
        streamSyncInit fs (.str s) .pynone = .error .typeError
        ∧ streamSyncInit fs (.str s) .nonstr = .error .typeError
        ∧ streamSyncInit fs (.str s) (.str "") = .error .typeError
        ∧ (ch ≠ "" → lookupChannel f ch = none →
            streamSyncInit fs (.str s) (.str ch) = .error .valueError)
        ∧ (∀ dat, ch ≠ "" → lookupChannel f ch = some dat →
            streamSyncInit fs (.str s) (.str ch) = .ok ⟨f, dat, f.sfreq, []⟩)) := by
  refine ⟨rfl, rfl, by simp [streamSyncInit], ?_, ?_, ?_⟩
  · intro h1 h2
    simp [streamSyncInit, h1, h2]
  · intro cont h1 h2 h3
    simp [streamSyncInit, h1, h2, h3]
  · intro f h1 h2 h3
    refine ⟨by simp [streamSyncInit, h1, h2, h3],
            by simp [streamSyncInit, h1, h2, h3],
            by simp [streamSyncInit, h1, h2, h3], ?_, ?_⟩
    · intro h4 h5
      simp [streamSyncInit, h1, h2, h3, h4, h5]
    · intro dat h4 h5
      simp [streamSyncInit, h1, h2, h3, h4, h5]

/-- C3 counterexample: a valid `.fif` reference whose pulse channel is
completely flat (pulse-free) is accepted — construction succeeds and no
`NoPulsesFoundError` is raised, contradicting the claim that a
pulse-free reference raises. -/
theorem C3_counterexample :
    streamSyncInit fsRef (.str "ref.fif") (.str "STI101") =
      .ok ⟨fif0, [0, 0, 0, 0], 1000, []⟩ := by
  decide

/-- Witness for C3: a missing reference file raises `OSError`, and a
`None` reference object raises `TypeError`. -/
theorem C3_witness :
    streamSyncInit fsRef (.str "missing.fif") .pynone = .error .osError
    ∧ streamSyncInit fsRef .pynone .pynone = .error .typeError :=
  ⟨(C3_init_checks fsRef .pynone "missing.fif" "x").2.2.2.1 (by decide)
      (by decide),
   (C3_init_checks fsRef .pynone "missing" "x").1⟩

/-- C9: on a two-column (stereo) wav signal with channel index 0 or 1,
`_extract_data_from_wav` returns the sample rate, column `c` as the
pulse channel and column `1-c` as the data channel; on a mono (1-D)
signal, or on a stereo signal with an integer channel outside `{0,1}`,
it raises `IndexError`. -/
theorem C9_wav_extraction (srate : ℤ) (rows : List (List ℤ)) (c : ℤ) :
    (c = 0 ∨ c = 1 →
      extract_data_from_wav ⟨srate, .multi 2 rows⟩ c =
        .ok (srate, rows.map (fun r => r.getD c.toNat 0),
          rows.map (fun r => r.getD (1 - c).toNat 0)))
    ∧ (∀ samples, extract_data_from_wav ⟨srate, .mono samples⟩ c =
        .error .indexError)
    ∧ (¬ (c = 0 ∨ c = 1) →
      extract_data_from_wav ⟨srate, .multi 2 rows⟩ c = .error .indexError) := by
  refine ⟨?_, fun _ => rfl, ?_⟩
  · rintro (rfl | rfl) <;> norm_num [extract_data_from_wav, npCol]
  · intro h
    push_neg at h
    obtain ⟨h0, h1⟩ := h
    simp only [extract_data_from_wav, npCol]
    split_ifs <;> first | rfl | omega

/-- Witness for C9: channel 0 of a concrete stereo file splits the
columns; a mono file and an out-of-range channel raise `IndexError`. -/
theorem C9_witness :
    extract_data_from_wav ⟨44100, .multi 2 [[3, -1], [0, 5]]⟩ 0 =
        .ok (44100, [3, 0], [-1, 5])
    ∧ extract_data_from_wav ⟨44100, .mono [1, 2]⟩ 0 = .error .indexError
    ∧ extract_data_from_wav ⟨44100, .multi 2 [[3, -1], [0, 5]]⟩ 2 =
        .error .indexError :=
  ⟨(C9_wav_extraction 44100 [[3, -1], [0, 5]] 0).1 (Or.inl rfl),
   (C9_wav_extraction 44100 [] 0).2.1 [1, 2],
   (C9_wav_extraction 44100 [[3, -1], [0, 5]] 2).2.2 (by decide)⟩

/-- C6 counterexample: two filesystems that differ only in the contents
of the file `cam1.wav` make `add_stream` produce different results on
the same session state and arguments — so `add_stream` reads and parses
the file itself instead of consuming an already-loaded Signal. -/
theorem C6_counterexample :
    add_stream fsA s0 "cam1.wav" 0 ≠ add_stream fsB s0 "cam1.wav" 0 := by
  decide

/-- C6 (amended): the core does parse file formats — `add_stream`
reads and parses the file at the stream path (its result is determined
by the state together with the filesystem content at exactly that
path), and `__init__` likewise reads the reference file at its path. -/
theorem C6_reads_the_filesystem (fs fs2 : FS) (s : StreamSyncState)
    (p : String) (c : ℤ) (rs : String) (pc : PyArg) :
    (fs p = fs2 p → add_stream fs s p c = add_stream fs2 s p c)
    ∧ (fs rs = fs2 rs →
        streamSyncInit fs (.str rs) pc = streamSyncInit fs2 (.str rs) pc) := by
  constructor
  · intro h
    simp only [add_stream, extract_data_from_stream, h]
  · intro h
    simp only [streamSyncInit, h]

/-- Witness for C6: two concrete filesystems agreeing at `cam1.wav`
(and nowhere else) give `add_stream` the same result there. -/
theorem C6_witness :
    add_stream fsA s0 "cam1.wav" 0 = add_stream fsC s0 "cam1.wav" 0 :=
  (C6_reads_the_filesystem fsA fsC s0 "cam1.wav" 0 "x" .pynone).1 (by decide)

/-- C1: what `add_stream` actually does on a stream whose pulse channel
is pure noise — it extracts the wav columns, appends the raw tuple
`(filename, srate, pulses, data)` to `self.streams`, and returns `None`
(unit): no detect/match/fit runs and no SyncResult (in particular none
labelled "failed") is produced or returned. -/
theorem C1_add_stream_behavior :
    add_stream fsA s0 "cam1.wav" 0 =
      (.ok (),
        { s0 with streams :=
            [("cam1.wav", 44100, [3, -2, 1, -4, 2, 0], [-1, 5, 0, 2, -3, 1])] }) := by
  decide

/-- C2: what the code offers in place of a report — `do_syncing`
returns `None` and leaves the session unchanged, and after adding two
streams the session state holds only the raw extracted tuples, with no
SyncResult and no per-stream status anywhere. -/
theorem C2_no_report_produced :
    do_syncing s2 = (s2, ())
    ∧ s2.streams =
      [("cam1.wav", 44100, [3, -2, 1, -4, 2, 0], [-1, 5, 0, 2, -3, 1]),
       ("cam2.wav", 44100, [3, -2, 1, -4, 2, 0], [-1, 5, 0, 2, -3, 1])] :=
  ⟨rfl, by decide⟩

/-- C7: every accepted TimeWarp carries a drift-scale within the
configured plausible bound — whenever `fit` returns a result holding a
warp, `drift_lo ≤ a ≤ drift_hi`; and whenever the final fitted scale
falls outside the bound (with enough matches to fit at all), `fit`
returns — without raising — a result with no warp and confidence label
"failed". -/
theorem C7_drift_bound (ms : List PulseMatch) (cfg : WarpConfig) :
    (∀ r w, fit ms cfg = .ok r → r.warp = some w →
      cfg.drift_lo ≤ w.a ∧ w.a ≤ cfg.drift_hi)
    ∧ (∀ a b v k, ¬ ms.length < cfg.min_matches →
        finalFit (matchPoints ms) cfg = some (a, b, v, k) →
        a < cfg.drift_lo ∨ cfg.drift_hi < a →
        fit ms cfg = .ok ⟨none, k, v, "failed"⟩) := by
  constructor
  · intro r w hr hw
    unfold fit at hr
    split at hr
    · exact absurd hr (by simp)
    · split at hr
      · injection hr with h
        subst h
        simp at hw
      · split at hr
        · injection hr with h
          subst h
          simp at hw
        · next a b v k hdr =>
          injection hr with h
          subst h
          push_neg at hdr
          simp only [SyncResult.warp, Option.some.injEq] at hw
          subst hw
          exact ⟨hdr.1, hdr.2⟩
  · intro a b v k hlen hfin hdr
    simp [fit, hlen, hfin, hdr]

/-- Witness for C7: four exact matches on the identity warp are
accepted with `a = 1` inside the bound 0.9–1.1, while four exact
matches with drift 2 yield (without raising) a "failed" result with no
warp. -/
theorem C7_witness :
    (cfgW.drift_lo ≤ (1 : ℚ) ∧ (1 : ℚ) ≤ cfgW.drift_hi)
    ∧ fit msBad cfgW = .ok ⟨none, 4, 0, "failed"⟩ :=
  ⟨(C7_drift_bound msGood cfgW).1 ⟨some ⟨1, 0⟩, 4, 0, "high"⟩ ⟨1, 0⟩
      (by decide) rfl,
   (C7_drift_bound msBad cfgW).2 2 0 0 4 (by decide) (by decide) (by decide)⟩

end StreamSyncSpec
